import Mathlib

/-!
Verification of the YouTube AI agent script (src/app.py).

The script is embedded shallowly:
  - Python string operations (`in`, `split`, `join`, truthiness) are modelled
    over `List Char` / `String` with explicit definitions mirroring Python
    semantics (`split` scans left to right for non-overlapping occurrences
    of a non-empty separator).
  - The two external services (transcript provider, LLM completion provider)
    are passed in as function parameters; a provider failure is an
    `Except.error` value, mirroring a raised exception.
  - The Streamlit page run is modelled as a function from the widget inputs
    and the two services to a list of rendered effects; an uncaught LLM
    exception aborts the run (`Except.error`).
-/

namespace YoutubeAgent

/-! ## Python string primitives -/

/-- Index of the first occurrence of `sep` in `l` (Python `str.find`),
`none` when `sep` does not occur. -/
def find_sub (sep : List Char) : List Char → Option Nat
  | [] => if sep.isPrefixOf ([] : List Char) then some 0 else none
  | c :: cs =>
    if sep.isPrefixOf (c :: cs) then some 0
    else (find_sub sep cs).map (· + 1)

/-- Fuel-indexed worker for `pysplit`; the fuel is always at least the
length of the list, so the fuel-exhausted branch is never reached for a
non-empty separator. -/
def split_fuel (sep : List Char) : Nat → List Char → List (List Char)
  | 0, l => [l]
  | fuel + 1, l =>
    match find_sub sep l with
    | none => [l]
    | some i => l.take i :: split_fuel sep fuel (l.drop (i + sep.length))

/-- Python `str.split(sep)` on character lists: cut at each non-overlapping
occurrence of `sep`, scanning left to right. -/
def pysplit (sep l : List Char) : List (List Char) :=
  if sep.isEmpty then [l] else split_fuel sep l.length l

/-- The text before the first occurrence of `sep` (the whole string when
`sep` does not occur). -/
def before_first_l (sep l : List Char) : List Char :=
  match find_sub sep l with
  | none => l
  | some i => l.take i

/-- The text after the first occurrence of `sep`. -/
def after_first_l (sep l : List Char) : List Char :=
  match find_sub sep l with
  | none => []
  | some i => l.drop (i + sep.length)

/-- Python `sub in s`. -/
def py_in (sub s : String) : Bool :=
  (find_sub sub.toList s.toList).isSome

/-- Python `s.split(sep)` for a non-empty separator. -/
def py_split (sep s : String) : List String :=
  (pysplit sep.toList s.toList).map String.mk

/-- Python `sep.join(xs)`. -/
def py_join (sep : String) : List String → String
  | [] => ""
  | x :: xs => xs.foldl (fun acc y => acc ++ sep ++ y) x

/-- Python truthiness of a string: non-empty. -/
def py_truthy (s : String) : Bool := s != ""

/-- Python truthiness of an optional string (`None` and `""` are falsy). -/
def py_truthy_opt : Option String → Bool
  | none => false
  | some s => py_truthy s

/-- String-level `before_first_l`. -/
def before_first (sep s : String) : String :=
  String.mk (before_first_l sep.toList s.toList)

/-- String-level `after_first_l`. -/
def after_first (sep s : String) : String :=
  String.mk (after_first_l sep.toList s.toList)

/-! ## Data model -/

/-- One timed caption snippet returned by the transcript provider; only the
`text` field is read by the script. -/
structure CaptionFragment where
  text : String
  deriving DecidableEq

/-- The failure modes of the transcript provider named by the spec. -/
inductive ProviderError where
  | captionsDisabled
  | videoPrivate
  | networkError
  | invalidVideoId
  | other (msg : String)
  deriving DecidableEq

/-- The configuration handed to the ChatGroq constructor. -/
structure LLMConfig where
  temperature : Nat
  groq_api_key : String
  model_name : String
  deriving DecidableEq

/-- A response object from the LLM; the script reads `.content`. -/
structure ModelResponse where
  content : String
  deriving DecidableEq

/-- A failure raised by the LLM completion service. -/
inductive LLMError where
  | serviceError (msg : String)
  deriving DecidableEq

/-! ## extract_video_id (src/app.py lines 15-27) -/

/-- Embeds `extract_video_id`:
`url.split("v=")[1].split("&")[0]` when `"v=" in url`, else
`url.split("/")[-1].split("?")[0]` when `"youtu.be" in url`, else `None`.
Indexing `[1]`, `[0]`, `[-1]` is total here (`getD`/`getLastD`); under the
guards the accessed element always exists. -/
def extract_video_id (url : String) : Option String :=
  if py_in "v=" url then
    some ((py_split "&" ((py_split "v=" url).getD 1 "")).getD 0 "")
  else if py_in "youtu.be" url then
    some ((py_split "?" ((py_split "/" url).getLastD "")).getD 0 "")
  else none

/-! ## get_transcript (src/app.py lines 29-39) -/

/-- Embeds `get_transcript`: call the provider; on success join the
fragment texts with `" ".join(...)`; any raised error is swallowed and
`None` is returned. -/
def get_transcript (api : String → Except ProviderError (List CaptionFragment))
    (video_id : String) : Option String :=
  match api video_id with
  | Except.ok transcript_list =>
      some (py_join " " (transcript_list.map (fun item => item.text)))
  | Except.error _ => none

/-! ## Prompt composer (src/app.py lines 41-80) -/

/-- The ChatGroq configuration built inside `generate_summary`
(line 45): temperature 0, the session api key, a fixed model name. -/
def summary_llm_config (api_key : String) : LLMConfig :=
  ⟨0, api_key, "llama3-8b-8192"⟩

/-- The ChatGroq configuration built inside `ask_question` (line 65). -/
def question_llm_config (api_key : String) : LLMConfig :=
  ⟨0, api_key, "llama3-8b-8192"⟩

/-- Literal part of the summary template before the text slot. -/
def summary_prompt_intro : String :=
  "\n        You are an expert video summarizer.\n        Read the following transcript from a YouTube video and provide a concise, structured summary.\n        Capture the main points, key takeaways, and any actionable advice.\n        \n        Transcript: "

/-- Literal part of the summary template after the text slot. -/
def summary_prompt_tail : String := "\n        "

/-- The summary template with its text slot filled (template formatting
substitutes the slot in a single pass, i.e. concatenation). -/
def render_summary_prompt (text : String) : String :=
  summary_prompt_intro ++ text ++ summary_prompt_tail

/-- Literal part of the question template before the text slot. -/
def question_prompt_intro : String :=
  "\n        Answer the user\x27s question based ONLY on the following video transcript.\n        If the answer is not in the transcript, say \x22I couldn\x27t find that in the video.\x22\n        \n        Transcript: "

/-- Literal part of the question template between the two slots. -/
def question_prompt_mid : String := "\n        \n        Question: "

/-- Literal part of the question template after the question slot. -/
def question_prompt_tail : String := "\n        "

/-- The question template with both slots filled. -/
def render_question_prompt (text question : String) : String :=
  question_prompt_intro ++ text ++ question_prompt_mid ++ question ++ question_prompt_tail

/-- The fixed fallback phrase of the question template. -/
def fallback_phrase : String := "I couldn\x27t find that in the video."

/-- Embeds `generate_summary`: one call to the LLM service with the
summary configuration and the rendered summary prompt; the `.content`
field of the response is returned; an error is not caught. -/
def generate_summary (llm : LLMConfig → String → Except LLMError ModelResponse)
    (text api_key : String) : Except LLMError String :=
  (llm (summary_llm_config api_key) (render_summary_prompt text)).map ModelResponse.content

/-- Embeds `ask_question`: one call to the LLM service with the question
configuration and the rendered question prompt; errors are not caught. -/
def ask_question (llm : LLMConfig → String → Except LLMError ModelResponse)
    (text question api_key : String) : Except LLMError String :=
  (llm (question_llm_config api_key) (render_question_prompt text question)).map ModelResponse.content

/-! ## Interactive shell (src/app.py lines 82-130) -/

/-- The widget values present on one run of the page: the sidebar api key
field, the url field, whether the summary button was clicked, and the
question field. -/
structure ShellInput where
  api_key : String
  video_url : String
  summary_clicked : Bool
  user_question : String
  deriving DecidableEq

/-- One user-visible render or external call performed by a page run. -/
inductive Effect where
  | sidebar_header
  | api_key_input
  | title
  | intro_markdown
  | url_input
  | url_parse (url : String)
  | video_player (url : String)
  | spinner (msg : String)
  | transcript_fetch (video_id : String)
  | tabs_render
  | summary_button
  | llm_call (cfg : LLMConfig) (prompt : String)
  | summary_markdown (s : String)
  | chat_info
  | question_input
  | answer_write (s : String)
  | transcript_area (t : String)
  | error_box (msg : String)
  | warning_box (msg : String)
  deriving DecidableEq

/-- The `st.error` message for an unrecognised URL (line 128). -/
def invalid_url_msg : String := "Invalid YouTube URL."

/-- The `st.error` message for a missing transcript (line 126). -/
def no_transcript_msg : String :=
  "Could not retrieve transcript. Note: This tool only works on videos that have Closed Captions/Subtitles enabled."

/-- The `st.warning` message for a missing api key (line 130). -/
def missing_key_warning : String :=
  "⚠️ Please enter your Groq API Key in the sidebar to proceed."

/-- The renders that every page run performs before the main conditional:
page config widgets, sidebar, title, intro text, url field. -/
def header_fx : List Effect :=
  [Effect.sidebar_header, Effect.api_key_input, Effect.title,
   Effect.intro_markdown, Effect.url_input]

/-- Embeds the page body (lines 88-130). Mirrors the nested conditionals:
`if video_url and api_key:` / `if video_id:` / `if transcript_text:` /
per-tab widgets, `elif not api_key:` warning. An uncaught LLM error aborts
the run with `Except.error`, mirroring an uncaught Python exception. -/
def run_app (inp : ShellInput)
    (api : String → Except ProviderError (List CaptionFragment))
    (llm : LLMConfig → String → Except LLMError ModelResponse) :
    Except LLMError (List Effect) :=
  if py_truthy inp.video_url && py_truthy inp.api_key then
    let parsed := header_fx ++ [Effect.url_parse inp.video_url]
    match extract_video_id inp.video_url with
    | none => Except.ok (parsed ++ [Effect.error_box invalid_url_msg])
    | some vid =>
      if py_truthy vid then
        let pre := parsed ++
          [Effect.video_player inp.video_url,
           Effect.spinner "Fetching transcript...",
           Effect.transcript_fetch vid]
        match get_transcript api vid with
        | none => Except.ok (pre ++ [Effect.error_box no_transcript_msg])
        | some transcript_text =>
          if py_truthy transcript_text then
            match (if inp.summary_clicked then
                     (generate_summary llm transcript_text inp.api_key).map
                       (fun summary =>
                         [Effect.spinner "Analyzing video content...",
                          Effect.llm_call (summary_llm_config inp.api_key)
                            (render_summary_prompt transcript_text),
                          Effect.summary_markdown summary])
                   else Except.ok []) with
            | Except.error e => Except.error e
            | Except.ok tab1 =>
              match (if py_truthy inp.user_question then
                       (ask_question llm transcript_text inp.user_question inp.api_key).map
                         (fun answer =>
                           [Effect.spinner "Thinking...",
                            Effect.llm_call (question_llm_config inp.api_key)
                              (render_question_prompt transcript_text inp.user_question),
                            Effect.answer_write answer])
                     else Except.ok []) with
              | Except.error e => Except.error e
              | Except.ok tab2 =>
                Except.ok (pre ++ [Effect.tabs_render, Effect.summary_button] ++ tab1 ++
                  [Effect.chat_info, Effect.question_input] ++ tab2 ++
                  [Effect.transcript_area transcript_text])
          else Except.ok (pre ++ [Effect.error_box no_transcript_msg])
      else Except.ok (parsed ++ [Effect.error_box invalid_url_msg])
  else if !py_truthy inp.api_key then
    Except.ok (header_fx ++ [Effect.warning_box missing_key_warning])
  else
    Except.ok header_fx

/-- Recognises the URL-parse step in a trace. -/
def is_parse_fx : Effect → Bool
  | Effect.url_parse _ => true
  | _ => false

/-- Recognises a transcript-provider call in a trace. -/
def is_fetch_fx : Effect → Bool
  | Effect.transcript_fetch _ => true
  | _ => false

/-- Recognises an LLM-service call in a trace. -/
def is_llm_fx : Effect → Bool
  | Effect.llm_call _ _ => true
  | _ => false

/-! ## Spec-side definitions (written from the words of spec.md, for
refinement comparison with the code-side definitions above) -/

/-- Spec 4.1, claim C1 as stated: the identifier is the text between the
first occurrence of the marker and the next ampersand, or the end of the
string. -/
def spec_v_extract (url : String) : String :=
  before_first "&" (after_first "v=" url)

/-- Spec 4.1: the last path segment of the URL, i.e. everything after the
last slash (the whole string when there is no slash). -/
def last_path_segment (s : String) : String :=
  String.mk ((s.toList.reverse.takeWhile (fun x => x != '/')).reverse)

/-- Spec 4.1: strip a trailing query, i.e. keep the text before the first
question mark. -/
def strip_query (s : String) : String :=
  String.mk (s.toList.takeWhile (fun x => x != '?'))

/-- Spec 3 / 4.2: fragments joined in order with single-space separators. -/
def joined_single_space : List String → String
  | [] => ""
  | [x] => x
  | x :: y :: ys => x ++ " " ++ joined_single_space (y :: ys)

/-! ## Lemmas about the Python string primitives -/

theorem isPrefixOf_nil_of_ne {sep : List Char} (hs : sep ≠ []) :
    sep.isPrefixOf ([] : List Char) = false := by
  cases sep with
  | nil => exact absurd rfl hs
  | cons a as => rfl

theorem find_sub_nil {sep : List Char} (hs : sep ≠ []) :
    find_sub sep [] = none := by
  simp [find_sub, isPrefixOf_nil_of_ne hs]

theorem find_sub_bound {sep : List Char} :
    ∀ {l : List Char} {i : Nat}, find_sub sep l = some i → i + sep.length ≤ l.length := by
  intro l
  induction l with
  | nil =>
    intro i h
    by_cases hs : sep = []
    · subst hs; simp [find_sub] at h; simp [h]
    · rw [find_sub_nil hs] at h; exact absurd h (by simp)
  | cons c cs ih =>
    intro i h
    rw [find_sub] at h
    split at h
    · next hp =>
      cases h
      have := (List.isPrefixOf_iff_prefix.mp hp).length_le
      simpa using this
    · next hp =>
      obtain ⟨j, hj, rfl⟩ := Option.map_eq_some'.mp h
      have := ih hj
      simp only [List.length_cons]
      omega

theorem find_sub_decomp {sep : List Char} :
    ∀ {l : List Char} {i : Nat}, find_sub sep l = some i →
      l = l.take i ++ sep ++ l.drop (i + sep.length) := by
  intro l
  induction l with
  | nil =>
    intro i h
    by_cases hs : sep = []
    · subst hs; simp
    · rw [find_sub_nil hs] at h; exact absurd h (by simp)
  | cons c cs ih =>
    intro i h
    rw [find_sub] at h
    split at h
    · next hp =>
      cases h
      obtain ⟨t, ht⟩ := List.isPrefixOf_iff_prefix.mp hp
      simp only [List.take_zero, List.nil_append, Nat.zero_add]
      conv_lhs => rw [← ht]
      rw [← ht, List.drop_left]
    · next hp =>
      obtain ⟨j, hj, rfl⟩ := Option.map_eq_some'.mp h
      have hcs := ih hj
      simp only [List.take_succ_cons]
      have hdrop : (c :: cs).drop (j + 1 + sep.length) = cs.drop (j + sep.length) := by
        have : j + 1 + sep.length = (j + sep.length) + 1 := by omega
        rw [this, List.drop_succ_cons]
      rw [hdrop]
      simp only [List.cons_append]
      exact congrArg (c :: ·) hcs

theorem split_fuel_congr {sep : List Char} (hs : sep ≠ []) :
    ∀ (f₁ : Nat) {f₂ : Nat} {l : List Char}, l.length ≤ f₁ → l.length ≤ f₂ →
      split_fuel sep f₁ l = split_fuel sep f₂ l := by
  have hlen : 1 ≤ sep.length := List.length_pos.mpr hs
  intro f₁
  induction f₁ with
  | zero =>
    intro f₂ l h1 h2
    have hl : l = [] := List.length_eq_zero.mp (Nat.le_zero.mp h1)
    subst hl
    cases f₂ with
    | zero => rfl
    | succ g => simp [split_fuel, find_sub_nil hs]
  | succ g ih =>
    intro f₂ l h1 h2
    cases f₂ with
    | zero =>
      have hl : l = [] := List.length_eq_zero.mp (Nat.le_zero.mp h2)
      subst hl
      simp [split_fuel, find_sub_nil hs]
    | succ g₂ =>
      simp only [split_fuel]
      cases hf : find_sub sep l with
      | none => rfl
      | some i =>
        have hb := find_sub_bound hf
        have hd : (l.drop (i + sep.length)).length ≤ g := by
          simp only [List.length_drop]; omega
        have hd₂ : (l.drop (i + sep.length)).length ≤ g₂ := by
          simp only [List.length_drop]; omega
        dsimp only
        rw [ih hd hd₂]

theorem pysplit_isEmpty_false {sep : List Char} (hs : sep ≠ []) :
    sep.isEmpty = false := by
  cases sep with
  | nil => exact absurd rfl hs
  | cons a as => rfl

theorem pysplit_none {sep l : List Char} (hs : sep ≠ []) (h : find_sub sep l = none) :
    pysplit sep l = [l] := by
  rw [pysplit, if_neg (by simp [pysplit_isEmpty_false hs])]
  cases hn : l.length with
  | zero => rfl
  | succ n => simp [split_fuel, h]

theorem pysplit_some {sep l : List Char} {i : Nat} (hs : sep ≠ [])
    (h : find_sub sep l = some i) :
    pysplit sep l = l.take i :: pysplit sep (l.drop (i + sep.length)) := by
  have hlen : 1 ≤ sep.length := List.length_pos.mpr hs
  have hb := find_sub_bound h
  have hl : 1 ≤ l.length := by omega
  obtain ⟨n, hn⟩ : ∃ n, l.length = n + 1 := ⟨l.length - 1, by omega⟩
  rw [pysplit, if_neg (by simp [pysplit_isEmpty_false hs]),
      pysplit, if_neg (by simp [pysplit_isEmpty_false hs])]
  rw [hn]
  simp only [split_fuel, h]
  have hd : (l.drop (i + sep.length)).length ≤ n := by
    simp only [List.length_drop]; omega
  rw [split_fuel_congr hs n hd (Nat.le_refl _)]

theorem split_fuel_ne_nil {sep : List Char} :
    ∀ (fuel : Nat) (l : List Char), split_fuel sep fuel l ≠ [] := by
  intro fuel l
  cases fuel with
  | zero => simp [split_fuel]
  | succ g =>
    cases h : find_sub sep l with
    | none => simp [split_fuel, h]
    | some i => simp [split_fuel, h]

theorem pysplit_ne_nil {sep l : List Char} : pysplit sep l ≠ [] := by
  rw [pysplit]
  split
  · simp
  · exact split_fuel_ne_nil _ _

theorem pysplit_getD_zero {sep l : List Char} (hs : sep ≠ []) :
    (pysplit sep l).getD 0 [] = before_first_l sep l := by
  cases h : find_sub sep l with
  | none => rw [pysplit_none hs h, before_first_l, h]; rfl
  | some i => rw [pysplit_some hs h, before_first_l, h]; rfl

theorem pysplit_getD_one {sep l : List Char} {i : Nat} (hs : sep ≠ [])
    (h : find_sub sep l = some i) :
    (pysplit sep l).getD 1 [] = before_first_l sep (l.drop (i + sep.length)) := by
  rw [pysplit_some hs h, List.getD_cons_succ, pysplit_getD_zero hs]

theorem isPrefixOf_single {c d : Char} {ds : List Char} :
    [c].isPrefixOf (d :: ds) = (c == d) := by
  simp [List.isPrefixOf]

theorem before_first_single (c : Char) :
    ∀ m : List Char, before_first_l [c] m = m.takeWhile (fun x => x != c) := by
  intro m
  induction m with
  | nil => rfl
  | cons d ds ih =>
    by_cases hcd : c = d
    · subst hcd
      rw [before_first_l, find_sub]
      simp [isPrefixOf_single]
    · have h1 : ([c].isPrefixOf (d :: ds)) = false := by
        simp [isPrefixOf_single, hcd]
      have h2 : (d != c) = true := by
        simp [bne_iff_ne]; exact fun h => hcd h.symm
      rw [List.takeWhile_cons, h2, ← ih]
      rw [before_first_l, find_sub, h1]
      simp only [if_false, Bool.false_eq_true]
      cases hf : find_sub [c] ds with
      | none => rw [before_first_l, hf]; rfl
      | some j => rw [before_first_l, hf]; simp

theorem find_sub_single_none_not_mem {c : Char} :
    ∀ {m : List Char}, find_sub [c] m = none → c ∉ m := by
  intro m
  induction m with
  | nil => intro _ h; exact absurd h (List.not_mem_nil c)
  | cons d ds ih =>
    intro h hmem
    rw [find_sub] at h
    split at h
    · exact absurd h (by simp)
    · next hp =>
      rw [isPrefixOf_single] at hp
      have hne : c ≠ d := by
        intro he; rw [he] at hp; simp at hp
      rcases List.mem_cons.mp hmem with h1 | h1
      · exact hne h1
      · exact ih (by cases hf : find_sub [c] ds <;> simp [hf] at h ⊢) h1

theorem takeWhile_append_stop {p : Char → Bool} {c : Char} (hc : p c = false) :
    ∀ (A B : List Char), (A ++ c :: B).takeWhile p = A.takeWhile p := by
  intro A B
  induction A with
  | nil => simp [List.takeWhile_cons, hc]
  | cons a A ih =>
    simp only [List.cons_append, List.takeWhile_cons]
    cases p a <;> simp [ih]

theorem getLastD_irrel {α : Type} {r : List α} {d₁ d₂ : α} (h : r ≠ []) :
    r.getLastD d₁ = r.getLastD d₂ := by
  cases r with
  | nil => exact absurd rfl h
  | cons b bs => rw [List.getLastD_cons, List.getLastD_cons]

theorem getLastD_cons_of_ne_nil {α : Type} {a d : α} {r : List α} (h : r ≠ []) :
    (a :: r).getLastD d = r.getLastD d := by
  rw [List.getLastD_cons]
  exact getLastD_irrel h

theorem getLast_pysplit_single (c : Char) :
    ∀ (n : Nat) (l : List Char), l.length ≤ n →
      (pysplit [c] l).getLastD [] = (l.reverse.takeWhile (fun x => x != c)).reverse := by
  have hs : ([c] : List Char) ≠ [] := by simp
  intro n
  induction n with
  | zero =>
    intro l hl
    have : l = [] := List.length_eq_zero.mp (Nat.le_zero.mp hl)
    subst this
    rw [pysplit_none hs (find_sub_nil hs)]
    rfl
  | succ n ih =>
    intro l hl
    cases hf : find_sub [c] l with
    | none =>
      rw [pysplit_none hs hf]
      have hmem : c ∉ l := find_sub_single_none_not_mem hf
      have : l.reverse.takeWhile (fun x => x != c) = l.reverse := by
        rw [List.takeWhile_eq_self_iff]
        intro x hx
        simp only [bne_iff_ne, ne_eq, decide_eq_true_eq]
        intro hxc
        exact hmem (by rw [← hxc]; exact List.mem_reverse.mp hx)
      rw [this, List.reverse_reverse]
      rfl
    | some i =>
      rw [pysplit_some hs hf]
      have hlen1 : ([c] : List Char).length = 1 := rfl
      have hdrop_len : (l.drop (i + 1)).length ≤ n := by
        have hb := find_sub_bound hf
        rw [hlen1] at hb
        simp only [List.length_drop]
        omega
      rw [getLastD_cons_of_ne_nil pysplit_ne_nil]
      rw [hlen1, ih (l.drop (i + 1)) hdrop_len]
      have hdec := find_sub_decomp hf
      rw [hlen1] at hdec
      have hrev : l.reverse =
          (l.drop (i + 1)).reverse ++ c :: (l.take i).reverse := by
        conv_lhs => rw [hdec]
        simp
      rw [hrev, takeWhile_append_stop (by simp)]

theorem map_mk_getD (xs : List (List Char)) :
    ∀ i : Nat, (xs.map String.mk).getD i "" = String.mk (xs.getD i []) := by
  induction xs with
  | nil => intro i; cases i <;> rfl
  | cons x xs ih =>
    intro i
    cases i with
    | zero => rfl
    | succ j => simp only [List.map_cons, List.getD_cons_succ]; exact ih j

theorem map_mk_getLastD :
    ∀ (xs : List (List Char)) (d : List Char),
      (xs.map String.mk).getLastD (String.mk d) = String.mk (xs.getLastD d) := by
  intro xs
  induction xs with
  | nil => intro d; rfl
  | cons x xs ih =>
    intro d
    rw [List.map_cons, List.getLastD_cons, List.getLastD_cons]
    exact ih x

theorem py_join_space_spec :
    ∀ (xs : List String) (a : String),
      xs.foldl (fun acc y => acc ++ " " ++ y) a = joined_single_space (a :: xs) := by
  intro xs
  induction xs with
  | nil => intro a; rfl
  | cons y ys ih =>
    intro a
    rw [List.foldl_cons, ih (a ++ " " ++ y)]
    cases ys with
    | nil => rfl
    | cons z zs =>
      show joined_single_space ((a ++ " " ++ y) :: z :: zs) =
        a ++ " " ++ joined_single_space (y :: z :: zs)
      rw [joined_single_space, joined_single_space]
      simp [String.append_assoc]

theorem toList_append (a b : String) : (a ++ b).toList = a.toList ++ b.toList := rfl

theorem isInfix_append_of_left {α : Type} {x a : List α} (b : List α)
    (h : x <:+: a) : x <:+: a ++ b := by
  obtain ⟨s, t, hst⟩ := h
  exact ⟨s, t ++ b, by rw [← hst]; simp⟩

/-! ## Claim theorems -/

/-- C1 (counterexample): on the URL
`https://www.youtube.com/watch?v=abv=c&t=1s`, which contains the marker
twice, `extract_video_id` returns `"ab"` (Python `split` also cuts at the
second occurrence of the marker), while the text between the first marker
and the next ampersand is `"abv=c"`; so the claim as stated fails. -/
theorem extract_video_id_c1_counterexample :
    py_in "v=" "https://www.youtube.com/watch?v=abv=c&t=1s" = true ∧
    extract_video_id "https://www.youtube.com/watch?v=abv=c&t=1s" = some "ab" ∧
    spec_v_extract "https://www.youtube.com/watch?v=abv=c&t=1s" = "abv=c" ∧
    extract_video_id "https://www.youtube.com/watch?v=abv=c&t=1s" ≠
      some (spec_v_extract "https://www.youtube.com/watch?v=abv=c&t=1s") := by
  refine ⟨by decide, by decide, by decide, by decide⟩

/-- C1 (amended): for every URL containing the marker `v=`,
`extract_video_id` returns the text after the first `v=`, truncated at the
next occurrence of `v=` (if any) and then at the next `&` (if any) — i.e.
cut at whichever of the two comes first, or the end of the string. -/
theorem extract_video_id_v_marker (url : String) (h : py_in "v=" url = true) :
    extract_video_id url =
      some (before_first "&" (before_first "v=" (after_first "v=" url))) := by
  have hsep : ("v=".toList : List Char) ≠ [] := by decide
  have hamp : (("&".toList) : List Char) ≠ [] := by decide
  rw [py_in] at h
  obtain ⟨i, hi⟩ := Option.isSome_iff_exists.mp h
  rw [extract_video_id, if_pos (by rw [py_in, hi]; rfl)]
  have step1 : (py_split "v=" url).getD 1 "" =
      String.mk (before_first_l ("v=".toList)
        (url.toList.drop (i + ("v=".toList).length))) := by
    rw [py_split, map_mk_getD, pysplit_getD_one hsep hi]
  have step2 : after_first "v=" url =
      String.mk (url.toList.drop (i + ("v=".toList).length)) := by
    rw [after_first, after_first_l, hi]
  rw [step1, step2, py_split, map_mk_getD, pysplit_getD_zero hamp]
  rfl

/-- C1 (witness for the amended theorem): a single-marker URL where the
amended description applies. -/
theorem extract_video_id_v_marker_witness :
    py_in "v=" "https://www.youtube.com/watch?v=dQw4w9WgXcQ&t=43s" = true ∧
    extract_video_id "https://www.youtube.com/watch?v=dQw4w9WgXcQ&t=43s" =
      some (before_first "&" (before_first "v="
        (after_first "v=" "https://www.youtube.com/watch?v=dQw4w9WgXcQ&t=43s"))) :=
  ⟨by decide, extract_video_id_v_marker _ (by decide)⟩

/-- C5: for every URL without the `v=` marker but containing `youtu.be`,
`extract_video_id` returns the last slash-separated path segment with any
trailing query (from the first question mark) stripped. -/
theorem extract_video_id_youtu_be (url : String)
    (hv : py_in "v=" url = false) (hb : py_in "youtu.be" url = true) :
    extract_video_id url = some (strip_query (last_path_segment url)) := by
  have hq : (("?".toList) : List Char) ≠ [] := by decide
  rw [extract_video_id, if_neg (by simp [hv]), if_pos hb]
  have stepA : (py_split "/" url).getLastD "" =
      String.mk ((url.toList.reverse.takeWhile (fun x => x != '/')).reverse) := by
    rw [py_split, show ("" : String) = String.mk [] from rfl, map_mk_getLastD]
    congr 1
    rw [show ("/".toList : List Char) = ['/'] from rfl]
    exact getLast_pysplit_single '/' url.toList.length url.toList (Nat.le_refl _)
  rw [stepA, py_split, map_mk_getD, pysplit_getD_zero hq]
  rw [show (("?".toList) : List Char) = ['?'] from rfl, before_first_single]
  rfl

/-- C5 (witness): the short-URL shape from the spec returns exactly the
identifier. -/
theorem extract_video_id_youtu_be_witness :
    py_in "v=" "https://youtu.be/ID?si=xyz" = false ∧
    py_in "youtu.be" "https://youtu.be/ID?si=xyz" = true ∧
    extract_video_id "https://youtu.be/ID?si=xyz" =
      some (strip_query (last_path_segment "https://youtu.be/ID?si=xyz")) ∧
    extract_video_id "https://youtu.be/ID?si=xyz" = some "ID" :=
  ⟨by decide, by decide, extract_video_id_youtu_be _ (by decide) (by decide), by decide⟩

/-- C2: whenever the transcript provider succeeds, `get_transcript`
returns the fragment texts joined in received order with single-space
separators; in particular fragments `Hello`, `world` give exactly
`Hello world`. -/
theorem get_transcript_single_space_join
    (api : String → Except ProviderError (List CaptionFragment))
    (vid : String) (frags : List CaptionFragment)
    (h : api vid = Except.ok frags) :
    get_transcript api vid =
      some (joined_single_space (frags.map (fun item => item.text))) ∧
    get_transcript (fun _ => Except.ok [⟨"Hello"⟩, ⟨"world"⟩]) vid =
      some "Hello world" := by
  constructor
  · rw [get_transcript, h]
    dsimp only
    congr 1
    generalize frags.map (fun item => item.text) = xs
    cases xs with
    | nil => rfl
    | cons x xs => exact py_join_space_spec xs x
  · rfl

/-- C2 (witness). -/
theorem get_transcript_single_space_join_witness :
    (fun (_ : String) => Except.ok (ε := ProviderError) [(⟨"Hello"⟩ : CaptionFragment), ⟨"world"⟩]) "id1" =
      Except.ok [(⟨"Hello"⟩ : CaptionFragment), ⟨"world"⟩] ∧
    get_transcript (fun _ => Except.ok [⟨"Hello"⟩, ⟨"world"⟩]) "id1" =
      some (joined_single_space ([(⟨"Hello"⟩ : CaptionFragment), ⟨"world"⟩].map (fun item => item.text))) ∧
    get_transcript (fun _ => Except.ok [⟨"Hello"⟩, ⟨"world"⟩]) "id1" = some "Hello world" := by
  obtain ⟨a, b⟩ := get_transcript_single_space_join
    (fun _ => Except.ok [⟨"Hello"⟩, ⟨"world"⟩]) "id1" [⟨"Hello"⟩, ⟨"world"⟩] rfl
  exact ⟨rfl, a, b⟩

/-- C3: any error raised by the transcript provider makes `get_transcript`
return the single unavailable signal `none`, and two runs failing with
different underlying errors are indistinguishable to the caller. -/
theorem get_transcript_failure_collapsed
    (api api2 : String → Except ProviderError (List CaptionFragment))
    (vid : String) (e e2 : ProviderError)
    (h : api vid = Except.error e) (h2 : api2 vid = Except.error e2) :
    get_transcript api vid = none ∧
    get_transcript api vid = get_transcript api2 vid := by
  have g1 : get_transcript api vid = none := by rw [get_transcript, h]
  have g2 : get_transcript api2 vid = none := by rw [get_transcript, h2]
  exact ⟨g1, g1.trans g2.symm⟩

/-- C3 (witness): a network error and a captions-disabled error both give
the same `none` outcome. -/
theorem get_transcript_failure_collapsed_witness :
    (fun (_ : String) => Except.error (α := List CaptionFragment) ProviderError.networkError) "id1" =
      Except.error ProviderError.networkError ∧
    get_transcript (fun _ => Except.error ProviderError.networkError) "id1" = none ∧
    get_transcript (fun _ => Except.error ProviderError.networkError) "id1" =
      get_transcript (fun _ => Except.error ProviderError.captionsDisabled) "id1" := by
  obtain ⟨a, b⟩ := get_transcript_failure_collapsed
    (fun _ => Except.error ProviderError.networkError)
    (fun _ => Except.error ProviderError.captionsDisabled)
    "id1" ProviderError.networkError ProviderError.captionsDisabled rfl rfl
  exact ⟨rfl, a, b⟩

/-- C7: `generate_summary` and `ask_question` invoke the LLM service with
identical model configuration — temperature fixed at zero and the same
fixed model name — and each performs exactly one call with that
configuration and its rendered prompt. -/
theorem llm_config_identical (k t q : String)
    (llm : LLMConfig → String → Except LLMError ModelResponse) :
    summary_llm_config k = question_llm_config k ∧
    (summary_llm_config k).temperature = 0 ∧
    (summary_llm_config k).model_name = "llama3-8b-8192" ∧
    generate_summary llm t k =
      (llm (summary_llm_config k) (render_summary_prompt t)).map ModelResponse.content ∧
    ask_question llm t q k =
      (llm (summary_llm_config k) (render_question_prompt t q)).map ModelResponse.content :=
  ⟨rfl, rfl, rfl, rfl, rfl⟩

/-- C8: neither `generate_summary` nor `ask_question` catches, retries or
times out a failing LLM call: the service error propagates unchanged to
the caller. -/
theorem llm_error_propagates (llm : LLMConfig → String → Except LLMError ModelResponse)
    (k t q : String) (e : LLMError)
    (hs : llm (summary_llm_config k) (render_summary_prompt t) = Except.error e)
    (hq : llm (question_llm_config k) (render_question_prompt t q) = Except.error e) :
    generate_summary llm t k = Except.error e ∧
    ask_question llm t q k = Except.error e := by
  constructor
  · rw [generate_summary, hs]; rfl
  · rw [ask_question, hq]; rfl

/-- C8 (witness): an always-failing LLM service double. -/
theorem llm_error_propagates_witness :
    generate_summary (fun _ _ => Except.error (LLMError.serviceError "boom")) "t" "k" =
      Except.error (LLMError.serviceError "boom") ∧
    ask_question (fun _ _ => Except.error (LLMError.serviceError "boom")) "t" "q" "k" =
      Except.error (LLMError.serviceError "boom") :=
  llm_error_propagates (fun _ _ => Except.error (LLMError.serviceError "boom"))
    "k" "t" "q" (LLMError.serviceError "boom") rfl rfl

set_option maxRecDepth 4000 in
theorem question_prompt_contains (t q : String) :
    "ONLY".toList <:+: (render_question_prompt t q).toList ∧
    fallback_phrase.toList <:+: (render_question_prompt t q).toList := by
  have he : (render_question_prompt t q).toList =
      question_prompt_intro.toList ++
        (t.toList ++ (question_prompt_mid.toList ++
          (q.toList ++ question_prompt_tail.toList))) := by
    rw [render_question_prompt]
    simp [toList_append, List.append_assoc]
  rw [he]
  constructor
  · exact isInfix_append_of_left _ (by decide)
  · exact isInfix_append_of_left _ (by decide)

/-- C4: when no URL or no api key is present, the page run performs no
URL parse, no transcript fetch and no LLM call; the URL prompt is always
rendered, and a missing api key additionally renders the warning. -/
theorem idle_no_action (inp : ShellInput)
    (api : String → Except ProviderError (List CaptionFragment))
    (llm : LLMConfig → String → Except LLMError ModelResponse)
    (h : inp.video_url = "" ∨ inp.api_key = "") :
    ∃ t, run_app inp api llm = Except.ok t ∧
      t.filter is_parse_fx = [] ∧ t.filter is_fetch_fx = [] ∧
      t.filter is_llm_fx = [] ∧ Effect.url_input ∈ t ∧
      (inp.api_key = "" → Effect.warning_box missing_key_warning ∈ t) := by
  have hcond : (py_truthy inp.video_url && py_truthy inp.api_key) = false := by
    rcases h with h | h <;> simp [py_truthy, h]
  by_cases hk : inp.api_key = ""
  · refine ⟨header_fx ++ [Effect.warning_box missing_key_warning], ?_, ?_, ?_, ?_, ?_, ?_⟩
    · rw [run_app, if_neg (by simp [hcond]), if_pos (by simp [py_truthy, hk])]
    · decide
    · decide
    · decide
    · decide
    · intro _; decide
  · refine ⟨header_fx, ?_, ?_, ?_, ?_, ?_, ?_⟩
    · rw [run_app, if_neg (by simp [hcond]),
        if_neg (by simp [py_truthy]; exact hk)]
    · decide
    · decide
    · decide
    · decide
    · intro hkey; exact absurd hkey hk

/-- C4 (witness): both fields empty. -/
theorem idle_no_action_witness :
    ∃ t, run_app ⟨"", "", false, ""⟩
        (fun _ => Except.error ProviderError.networkError)
        (fun _ _ => Except.error (LLMError.serviceError "x")) = Except.ok t ∧
      t.filter is_parse_fx = [] ∧ t.filter is_fetch_fx = [] ∧
      t.filter is_llm_fx = [] ∧ Effect.url_input ∈ t ∧
      ((⟨"", "", false, ""⟩ : ShellInput).api_key = "" →
        Effect.warning_box missing_key_warning ∈ t) :=
  idle_no_action ⟨"", "", false, ""⟩
    (fun _ => Except.error ProviderError.networkError)
    (fun _ _ => Except.error (LLMError.serviceError "x")) (Or.inl rfl)

/-- C6: a URL containing neither `v=` nor `youtu.be` makes
`extract_video_id` return `none`, and the page run then renders exactly
the invalid-URL error after the parse, performing no transcript fetch and
no LLM call. -/
theorem invalid_url_error (inp : ShellInput)
    (api : String → Except ProviderError (List CaptionFragment))
    (llm : LLMConfig → String → Except LLMError ModelResponse)
    (hv : py_in "v=" inp.video_url = false) (hb : py_in "youtu.be" inp.video_url = false)
    (hu : py_truthy inp.video_url = true) (hk : py_truthy inp.api_key = true) :
    extract_video_id inp.video_url = none ∧
    run_app inp api llm = Except.ok (header_fx ++
      [Effect.url_parse inp.video_url, Effect.error_box invalid_url_msg]) ∧
    (header_fx ++ [Effect.url_parse inp.video_url,
      Effect.error_box invalid_url_msg]).filter is_fetch_fx = [] ∧
    (header_fx ++ [Effect.url_parse inp.video_url,
      Effect.error_box invalid_url_msg]).filter is_llm_fx = [] := by
  have hnone : extract_video_id inp.video_url = none := by
    rw [extract_video_id, if_neg (by simp [hv]), if_neg (by simp [hb])]
  refine ⟨hnone, ?_, ?_, ?_⟩
  · rw [run_app, if_pos (by rw [hu, hk]; rfl)]
    simp only [hnone]
    simp
  · simp [header_fx, is_fetch_fx]
  · simp [header_fx, is_llm_fx]

/-- C6 (witness): a URL with neither marker. -/
theorem invalid_url_error_witness :
    extract_video_id "https://example.com/page" = none ∧
    run_app ⟨"key", "https://example.com/page", false, ""⟩
        (fun _ => Except.error ProviderError.networkError)
        (fun _ _ => Except.error (LLMError.serviceError "x")) =
      Except.ok (header_fx ++ [Effect.url_parse "https://example.com/page",
        Effect.error_box invalid_url_msg]) ∧
    (header_fx ++ [Effect.url_parse "https://example.com/page",
      Effect.error_box invalid_url_msg]).filter is_fetch_fx = [] ∧
    (header_fx ++ [Effect.url_parse "https://example.com/page",
      Effect.error_box invalid_url_msg]).filter is_llm_fx = [] :=
  invalid_url_error ⟨"key", "https://example.com/page", false, ""⟩
    (fun _ => Except.error ProviderError.networkError)
    (fun _ _ => Except.error (LLMError.serviceError "x"))
    (by decide) (by decide) (by decide) (by decide)

/-- C10: a provider that succeeds with an empty fragment sequence makes
`get_transcript` return the empty string; the page run then renders the
no-transcript error, never reaches the Ready tabs, and its whole trace is
identical to the trace of a run whose provider raises an error. -/
theorem empty_transcript_like_failure (inp : ShellInput)
    (llm : LLMConfig → String → Except LLMError ModelResponse)
    (vid : String) (e : ProviderError)
    (h1 : py_truthy inp.video_url = true) (h2 : py_truthy inp.api_key = true)
    (h3 : extract_video_id inp.video_url = some vid) (h4 : py_truthy vid = true) :
    get_transcript (fun _ => Except.ok []) vid = some "" ∧
    run_app inp (fun _ => Except.ok []) llm =
      run_app inp (fun _ => Except.error e) llm ∧
    ∃ t, run_app inp (fun _ => Except.ok []) llm = Except.ok t ∧
      Effect.error_box no_transcript_msg ∈ t ∧ Effect.tabs_render ∉ t := by
  have hget : get_transcript (fun _ => Except.ok ([] : List CaptionFragment)) vid = some "" := rfl
  have hget2 : get_transcript (fun _ => Except.error (α := List CaptionFragment) e) vid = none := rfl
  have hrun : run_app inp (fun _ => Except.ok []) llm =
      Except.ok (header_fx ++ [Effect.url_parse inp.video_url] ++
        [Effect.video_player inp.video_url, Effect.spinner "Fetching transcript...",
         Effect.transcript_fetch vid, Effect.error_box no_transcript_msg]) := by
    rw [run_app, if_pos (by rw [h1, h2]; rfl)]
    have h0 : py_truthy "" = false := rfl
    simp [h3, h4, hget, h0]
  have hrun2 : run_app inp (fun _ => Except.error e) llm =
      Except.ok (header_fx ++ [Effect.url_parse inp.video_url] ++
        [Effect.video_player inp.video_url, Effect.spinner "Fetching transcript...",
         Effect.transcript_fetch vid, Effect.error_box no_transcript_msg]) := by
    rw [run_app, if_pos (by rw [h1, h2]; rfl)]
    simp only [h3, h4, hget2, if_true]
    simp
  refine ⟨hget, hrun.trans hrun2.symm, _, hrun, ?_, ?_⟩
  · simp [header_fx]
  · simp [header_fx]

/-- C10 (witness). -/
theorem empty_transcript_like_failure_witness :
    get_transcript (fun _ => Except.ok []) "abc" = some "" ∧
    run_app ⟨"key", "https://youtu.be/abc", false, ""⟩ (fun _ => Except.ok [])
        (fun _ _ => Except.error (LLMError.serviceError "x")) =
      run_app ⟨"key", "https://youtu.be/abc", false, ""⟩
        (fun _ => Except.error ProviderError.captionsDisabled)
        (fun _ _ => Except.error (LLMError.serviceError "x")) ∧
    ∃ t, run_app ⟨"key", "https://youtu.be/abc", false, ""⟩ (fun _ => Except.ok [])
        (fun _ _ => Except.error (LLMError.serviceError "x")) = Except.ok t ∧
      Effect.error_box no_transcript_msg ∈ t ∧ Effect.tabs_render ∉ t :=
  empty_transcript_like_failure ⟨"key", "https://youtu.be/abc", false, ""⟩
    (fun _ _ => Except.error (LLMError.serviceError "x")) "abc"
    ProviderError.captionsDisabled (by decide) (by decide) (by decide) (by decide)

/-- C9: the rendered question prompt always contains both the
ONLY-the-transcript instruction marker and the fixed fallback phrase; and
for an LLM that, following that instruction on a question whose answer is
absent, answers with text containing the fallback phrase, the rendered
Q and A output in the page trace contains the fallback phrase. -/
theorem qa_fallback_rendered (inp : ShellInput)
    (api : String → Except ProviderError (List CaptionFragment))
    (llm : LLMConfig → String → Except LLMError ModelResponse)
    (vid tr ans : String)
    (h1 : py_truthy inp.video_url = true) (h2 : py_truthy inp.api_key = true)
    (h3 : extract_video_id inp.video_url = some vid) (h4 : py_truthy vid = true)
    (h5 : get_transcript api vid = some tr) (h6 : py_truthy tr = true)
    (h7 : py_truthy inp.user_question = true) (h8 : inp.summary_clicked = false)
    (h9 : llm (question_llm_config inp.api_key)
        (render_question_prompt tr inp.user_question) = Except.ok ⟨ans⟩)
    (h10 : fallback_phrase.toList <:+: ans.toList) :
    (∀ t q : String, "ONLY".toList <:+: (render_question_prompt t q).toList ∧
      fallback_phrase.toList <:+: (render_question_prompt t q).toList) ∧
    ∃ fx, run_app inp api llm = Except.ok fx ∧
      Effect.answer_write ans ∈ fx ∧
      fallback_phrase.toList <:+: ans.toList := by
  refine ⟨fun t q => question_prompt_contains t q, ?_⟩
  have hask : ask_question llm tr inp.user_question inp.api_key = Except.ok ans := by
    rw [ask_question, h9]; rfl
  have hrun : run_app inp api llm =
      Except.ok (header_fx ++ [Effect.url_parse inp.video_url] ++
        [Effect.video_player inp.video_url, Effect.spinner "Fetching transcript...",
         Effect.transcript_fetch vid] ++
        [Effect.tabs_render, Effect.summary_button] ++
        [Effect.chat_info, Effect.question_input] ++
        [Effect.spinner "Thinking...",
         Effect.llm_call (question_llm_config inp.api_key)
           (render_question_prompt tr inp.user_question),
         Effect.answer_write ans] ++
        [Effect.transcript_area tr]) := by
    rw [run_app, if_pos (by rw [h1, h2]; rfl)]
    simp only [h3, h4, h5, h6, h7, h8, hask, if_true, if_false]
    simp [Except.map]
  refine ⟨_, hrun, ?_, h10⟩
  simp [header_fx]

/-- C9 (witness): an obedient LLM double that answers with the fallback
phrase itself. -/
theorem qa_fallback_rendered_witness :
    (∀ t q : String, "ONLY".toList <:+: (render_question_prompt t q).toList ∧
      fallback_phrase.toList <:+: (render_question_prompt t q).toList) ∧
    ∃ fx, run_app ⟨"key", "https://youtu.be/abc", false, "Who is the speaker?"⟩
        (fun _ => Except.ok [⟨"Hello"⟩])
        (fun _ _ => Except.ok ⟨fallback_phrase⟩) = Except.ok fx ∧
      Effect.answer_write fallback_phrase ∈ fx ∧
      fallback_phrase.toList <:+: fallback_phrase.toList :=
  qa_fallback_rendered ⟨"key", "https://youtu.be/abc", false, "Who is the speaker?"⟩
    (fun _ => Except.ok [⟨"Hello"⟩]) (fun _ _ => Except.ok ⟨fallback_phrase⟩)
    "abc" "Hello" fallback_phrase
    (by decide) (by decide) (by decide) (by decide) rfl (by decide) (by decide) rfl
    rfl List.infix_rfl

end YoutubeAgent
